import Mathlib

/-!
Shallow embedding of the broker-response error classification subsystem of
`afkak/common.py`: the error taxonomy (one class per protocol error code,
each with an `errno`, a `message` and a `retriable` flag), the registry
`BrokerResponseError.errnos` mapping codes to classes, the response value
objects, and the classifier `_check_error`.
-/

/-- The observable data of a `BrokerResponseError` (sub)class instance:
`errno` (the integer error code), `message` (the canonical protocol name,
`None` for unknown codes) and the `retriable` flag.  The Python base class
`BrokerResponseError` has `retriable = False` and `message = None`;
`RetriableBrokerResponseError` sets `retriable = True`. -/
structure ErrClass where
  errno : Int
  message : Option String
  retriable : Bool
deriving DecidableEq

/-- `class UnknownError(BrokerResponseError)`, errno -1. -/
def UnknownError : ErrClass := ⟨-1, some "UNKNOWN_SERVER_ERROR", false⟩

/-- `class OffsetOutOfRangeError(BrokerResponseError)`, errno 1. -/
def OffsetOutOfRangeError : ErrClass := ⟨1, some "OFFSET_OUT_OF_RANGE", false⟩

/-- `class CorruptMessage(RetriableBrokerResponseError)`, errno 2. -/
def CorruptMessage : ErrClass := ⟨2, some "CORRUPT_MESSAGE", true⟩

/-- Compatibility alias: `InvalidMessageError = CorruptMessage`. -/
def InvalidMessageError : ErrClass := CorruptMessage

/-- errno 3, retriable. -/
def UnknownTopicOrPartitionError : ErrClass :=
  ⟨3, some "UNKNOWN_TOPIC_OR_PARTITION", true⟩

/-- errno 4. -/
def InvalidFetchRequestError : ErrClass := ⟨4, some "INVALID_FETCH_SIZE", false⟩

/-- errno 5, retriable. -/
def LeaderNotAvailableError : ErrClass := ⟨5, some "LEADER_NOT_AVAILABLE", true⟩

/-- errno 6, retriable. -/
def NotLeaderForPartitionError : ErrClass :=
  ⟨6, some "NOT_LEADER_FOR_PARTITION", true⟩

/-- errno 7, retriable. -/
def RequestTimedOutError : ErrClass := ⟨7, some "REQUEST_TIMED_OUT", true⟩

/-- errno 8. -/
def BrokerNotAvailableError : ErrClass := ⟨8, some "BROKER_NOT_AVAILABLE", false⟩

/-- errno 9. -/
def ReplicaNotAvailableError : ErrClass :=
  ⟨9, some "REPLICA_NOT_AVAILABLE", false⟩

/-- errno 10. -/
def MessageSizeTooLargeError : ErrClass :=
  ⟨10, some "MESSAGE_SIZE_TOO_LARGE", false⟩

/-- errno 11. -/
def StaleControllerEpochError : ErrClass :=
  ⟨11, some "STALE_CONTROLLER_EPOCH", false⟩

/-- errno 12. -/
def OffsetMetadataTooLargeError : ErrClass :=
  ⟨12, some "OFFSET_METADATA_TOO_LARGE", false⟩

/-- errno 13, retriable. -/
def NetworkException : ErrClass := ⟨13, some "NETWORK_EXCEPTION", true⟩

/-- Compatibility alias: `StaleLeaderEpochCodeError = NetworkException`. -/
def StaleLeaderEpochCodeError : ErrClass := NetworkException

/-- errno 14, retriable. -/
def CoordinatorLoadInProgress : ErrClass :=
  ⟨14, some "COORDINATOR_LOAD_IN_PROGRESS", true⟩

/-- Compatibility alias: `OffsetsLoadInProgressError = CoordinatorLoadInProgress`. -/
def OffsetsLoadInProgressError : ErrClass := CoordinatorLoadInProgress

/-- errno 15, retriable. -/
def CoordinatorNotAvailable : ErrClass :=
  ⟨15, some "COORDINATOR_NOT_AVAILABLE", true⟩

/-- Compatibility alias: `ConsumerCoordinatorNotAvailableError = CoordinatorNotAvailable`. -/
def ConsumerCoordinatorNotAvailableError : ErrClass := CoordinatorNotAvailable

/-- errno 16, retriable. -/
def NotCoordinator : ErrClass := ⟨16, some "NOT_COORDINATOR", true⟩

/-- Compatibility alias: `NotCoordinatorForConsumerError = NotCoordinator`. -/
def NotCoordinatorForConsumerError : ErrClass := NotCoordinator

/-- errno 17. -/
def InvalidTopic : ErrClass := ⟨17, some "INVALID_TOPIC_EXCEPTION", false⟩

/-- errno 18. -/
def RecordListTooLarge : ErrClass := ⟨18, some "RECORD_LIST_TOO_LARGE", false⟩

/-- errno 19, retriable. -/
def NotEnoughReplicas : ErrClass := ⟨19, some "NOT_ENOUGH_REPLICAS", true⟩

/-- errno 20, retriable. -/
def NotEnoughReplicasAfterAppend : ErrClass :=
  ⟨20, some "NOT_ENOUGH_REPLICAS_AFTER_APPEND", true⟩

/-- errno 21. -/
def InvalidRequiredAcks : ErrClass := ⟨21, some "INVALID_REQUIRED_ACKS", false⟩

/-- errno 22. -/
def IllegalGeneration : ErrClass := ⟨22, some "ILLEGAL_GENERATION", false⟩

/-- errno 23. -/
def InconsistentGroupProtocol : ErrClass :=
  ⟨23, some "INCONSISTENT_GROUP_PROTOCOL", false⟩

/-- errno 24. -/
def InvalidGroupId : ErrClass := ⟨24, some "INVALID_GROUP_ID", false⟩

/-- errno 25. -/
def UnknownMemberId : ErrClass := ⟨25, some "UNKNOWN_MEMBER_ID", false⟩

/-- errno 26. -/
def InvalidSessionTimeout : ErrClass :=
  ⟨26, some "INVALID_SESSION_TIMEOUT", false⟩

/-- errno 27. -/
def RebalanceInProgress : ErrClass := ⟨27, some "REBALANCE_IN_PROGRESS", false⟩

/-- errno 28. -/
def InvalidCommitOffsetSize : ErrClass :=
  ⟨28, some "INVALID_COMMIT_OFFSET_SIZE", false⟩

/-- errno 29. -/
def TopicAuthorizationFailed : ErrClass :=
  ⟨29, some "TOPIC_AUTHORIZATION_FAILED", false⟩

/-- errno 30. -/
def GroupAuthorizationFailed : ErrClass :=
  ⟨30, some "GROUP_AUTHORIZATION_FAILED", false⟩

/-- errno 31. -/
def ClusterAuthorizationFailed : ErrClass :=
  ⟨31, some "CLUSTER_AUTHORIZATION_FAILED", false⟩

/-- errno 32. -/
def InvalidTimestamp : ErrClass := ⟨32, some "INVALID_TIMESTAMP", false⟩

/-- errno 33. -/
def UnsupportedSaslMechanism : ErrClass :=
  ⟨33, some "UNSUPPORTED_SASL_MECHANISM", false⟩

/-- errno 34. -/
def IllegalSaslState : ErrClass := ⟨34, some "ILLEGAL_SASL_STATE", false⟩

/-- errno 35. -/
def UnsupportedVersion : ErrClass := ⟨35, some "UNSUPPORTED_VERSION", false⟩

/-- errno 36. -/
def TopicAlreadyExists : ErrClass := ⟨36, some "TOPIC_ALREADY_EXISTS", false⟩

/-- errno 37. -/
def InvalidPartitions : ErrClass := ⟨37, some "INVALID_PARTITIONS", false⟩

/-- errno 38. -/
def InvalidReplicationFactor : ErrClass :=
  ⟨38, some "INVALID_REPLICATION_FACTOR", false⟩

/-- errno 39. -/
def InvalidReplicaAssignment : ErrClass :=
  ⟨39, some "INVALID_REPLICA_ASSIGNMENT", false⟩

/-- errno 40. -/
def InvalidConfig : ErrClass := ⟨40, some "INVALID_CONFIG", false⟩

/-- errno 41, retriable. -/
def NotController : ErrClass := ⟨41, some "NOT_CONTROLLER", true⟩

/-- errno 42. -/
def InvalidRequest : ErrClass := ⟨42, some "INVALID_REQUEST", false⟩

/-- errno 43. -/
def UnsupportedForMessageFormat : ErrClass :=
  ⟨43, some "UNSUPPORTED_FOR_MESSAGE_FORMAT", false⟩

/-- errno 44. -/
def PolicyViolation : ErrClass := ⟨44, some "POLICY_VIOLATION", false⟩

/-- errno 45. -/
def OutOfOrderSequenceNumber : ErrClass :=
  ⟨45, some "OUT_OF_ORDER_SEQUENCE_NUMBER", false⟩

/-- errno 46. -/
def DuplicateSequenceNumber : ErrClass :=
  ⟨46, some "DUPLICATE_SEQUENCE_NUMBER", false⟩

/-- errno 47. -/
def InvalidProducerEpoch : ErrClass :=
  ⟨47, some "INVALID_PRODUCER_EPOCH", false⟩

/-- errno 48. -/
def InvalidTxnState : ErrClass := ⟨48, some "INVALID_TXN_STATE", false⟩

/-- errno 49. -/
def InvalidProducerIdMapping : ErrClass :=
  ⟨49, some "INVALID_PRODUCER_ID_MAPPING", false⟩

/-- errno 50. -/
def InvalidTransactionTimeout : ErrClass :=
  ⟨50, some "INVALID_TRANSACTION_TIMEOUT", false⟩

/-- errno 51. -/
def ConcurrentTransactions : ErrClass :=
  ⟨51, some "CONCURRENT_TRANSACTIONS", false⟩

/-- errno 52. -/
def TransactionCoordinatorFenced : ErrClass :=
  ⟨52, some "TRANSACTION_COORDINATOR_FENCED", false⟩

/-- errno 53. -/
def TransactionalIdAuthorizationFailed : ErrClass :=
  ⟨53, some "TRANSACTIONAL_ID_AUTHORIZATION_FAILED", false⟩

/-- errno 54. -/
def SecurityDisabled : ErrClass := ⟨54, some "SECURITY_DISABLED", false⟩

/-- errno 55. -/
def OperationNotAttempted : ErrClass :=
  ⟨55, some "OPERATION_NOT_ATTEMPTED", false⟩

/-- errno 56, retriable. -/
def KafkaStorageError : ErrClass := ⟨56, some "KAFKA_STORAGE_ERROR", true⟩

/-- errno 57. -/
def LogDirNotFound : ErrClass := ⟨57, some "LOG_DIR_NOT_FOUND", false⟩

/-- errno 58. -/
def SaslAuthenticationFailed : ErrClass :=
  ⟨58, some "SASL_AUTHENTICATION_FAILED", false⟩

/-- errno 59. -/
def UnknownProducerId : ErrClass := ⟨59, some "UNKNOWN_PRODUCER_ID", false⟩

/-- errno 60. -/
def ReassignmentInProgress : ErrClass :=
  ⟨60, some "REASSIGNMENT_IN_PROGRESS", false⟩

/-- errno 61. -/
def DelegationTokenAuthDisabled : ErrClass :=
  ⟨61, some "DELEGATION_TOKEN_AUTH_DISABLED", false⟩

/-- errno 62. -/
def DelegationTokenNotFound : ErrClass :=
  ⟨62, some "DELEGATION_TOKEN_NOT_FOUND", false⟩

/-- errno 63. -/
def DelegationTokenOwnerMismatch : ErrClass :=
  ⟨63, some "DELEGATION_TOKEN_OWNER_MISMATCH", false⟩

/-- errno 64. -/
def DelegationTokenRequestNotAllowed : ErrClass :=
  ⟨64, some "DELEGATION_TOKEN_REQUEST_NOT_ALLOWED", false⟩

/-- errno 65. -/
def DelegationTokenAuthorizationFailed : ErrClass :=
  ⟨65, some "DELEGATION_TOKEN_AUTHORIZATION_FAILED", false⟩

/-- errno 66. -/
def DelegationTokenExpired : ErrClass :=
  ⟨66, some "DELEGATION_TOKEN_EXPIRED", false⟩

/-- errno 67. -/
def InvalidPrincipalType : ErrClass :=
  ⟨67, some "INVALID_PRINCIPAL_TYPE", false⟩

/-- errno 68. -/
def NonEmptyGroup : ErrClass := ⟨68, some "NON_EMPTY_GROUP", false⟩

/-- errno 69. -/
def GroupIdNotFound : ErrClass := ⟨69, some "GROUP_ID_NOT_FOUND", false⟩

/-- errno 70, retriable. -/
def FetchSessionIdNotFound : ErrClass :=
  ⟨70, some "FETCH_SESSION_ID_NOT_FOUND", true⟩

/-- errno 71, retriable. -/
def InvalidFetchSessionEpoch : ErrClass :=
  ⟨71, some "INVALID_FETCH_SESSION_EPOCH", true⟩

/-- errno 72, retriable. -/
def ListenerNotFound : ErrClass := ⟨72, some "LISTENER_NOT_FOUND", true⟩

/-- The registry `BrokerResponseError.errnos`: the dict literal of
`common.py` lines 620-694, in source order. -/
def errnos : List (Int × ErrClass) :=
  [(-1, UnknownError),
   (1, OffsetOutOfRangeError),
   (2, CorruptMessage),
   (3, UnknownTopicOrPartitionError),
   (4, InvalidFetchRequestError),
   (5, LeaderNotAvailableError),
   (6, NotLeaderForPartitionError),
   (7, RequestTimedOutError),
   (8, BrokerNotAvailableError),
   (9, ReplicaNotAvailableError),
   (10, MessageSizeTooLargeError),
   (11, StaleControllerEpochError),
   (12, OffsetMetadataTooLargeError),
   (13, NetworkException),
   (14, CoordinatorLoadInProgress),
   (15, CoordinatorNotAvailable),
   (16, NotCoordinator),
   (17, InvalidTopic),
   (18, RecordListTooLarge),
   (19, NotEnoughReplicas),
   (20, NotEnoughReplicasAfterAppend),
   (21, InvalidRequiredAcks),
   (22, IllegalGeneration),
   (23, InconsistentGroupProtocol),
   (24, InvalidGroupId),
   (25, UnknownMemberId),
   (26, InvalidSessionTimeout),
   (27, RebalanceInProgress),
   (28, InvalidCommitOffsetSize),
   (29, TopicAuthorizationFailed),
   (30, GroupAuthorizationFailed),
   (31, ClusterAuthorizationFailed),
   (32, InvalidTimestamp),
   (33, UnsupportedSaslMechanism),
   (34, IllegalSaslState),
   (35, UnsupportedVersion),
   (36, TopicAlreadyExists),
   (37, InvalidPartitions),
   (38, InvalidReplicationFactor),
   (39, InvalidReplicaAssignment),
   (40, InvalidConfig),
   (41, NotController),
   (42, InvalidRequest),
   (43, UnsupportedForMessageFormat),
   (44, PolicyViolation),
   (45, OutOfOrderSequenceNumber),
   (46, DuplicateSequenceNumber),
   (47, InvalidProducerEpoch),
   (48, InvalidTxnState),
   (49, InvalidProducerIdMapping),
   (50, InvalidTransactionTimeout),
   (51, ConcurrentTransactions),
   (52, TransactionCoordinatorFenced),
   (53, TransactionalIdAuthorizationFailed),
   (54, SecurityDisabled),
   (55, OperationNotAttempted),
   (56, KafkaStorageError),
   (57, LogDirNotFound),
   (58, SaslAuthenticationFailed),
   (59, UnknownProducerId),
   (60, ReassignmentInProgress),
   (61, DelegationTokenAuthDisabled),
   (62, DelegationTokenNotFound),
   (63, DelegationTokenOwnerMismatch),
   (64, DelegationTokenRequestNotAllowed),
   (65, DelegationTokenAuthorizationFailed),
   (66, DelegationTokenExpired),
   (67, InvalidPrincipalType),
   (68, NonEmptyGroup),
   (69, GroupIdNotFound),
   (70, FetchSessionIdNotFound),
   (71, InvalidFetchSessionEpoch),
   (72, ListenerNotFound)]

/-- Python `dict.get`: look up a key, `None` when absent. -/
def dictGet (reg : List (Int × ErrClass)) (code : Int) : Option ErrClass :=
  (reg.find? (fun p => p.1 == code)).map Prod.snd

/-- `BrokerResponseError.errnos.get(code)`. -/
def errnosGet (code : Int) : Option ErrClass := dictGet errnos code

/-- The canonical code table of the protocol: 0, -1, and 1 through 72. -/
def canonicalCodes : List Int :=
  0 :: -1 :: (List.range 72).map (fun n => (n : Int) + 1)

/-- The five compatibility-alias assignments of `common.py`
(lines 178, 235, 242, 249, 256): alias name, the class the alias is bound
to, and the canonical class it aliases. -/
def legacyAliases : List (String × ErrClass × ErrClass) :=
  [("InvalidMessageError", InvalidMessageError, CorruptMessage),
   ("StaleLeaderEpochCodeError", StaleLeaderEpochCodeError, NetworkException),
   ("OffsetsLoadInProgressError", OffsetsLoadInProgressError,
    CoordinatorLoadInProgress),
   ("ConsumerCoordinatorNotAvailableError",
    ConsumerCoordinatorNotAvailableError, CoordinatorNotAvailable),
   ("NotCoordinatorForConsumerError", NotCoordinatorForConsumerError,
    NotCoordinator)]

/-- `Message` namedtuple. -/
structure Message where
  magic : Int
  attributes : Int
  key : Option (List Nat)
  value : Option (List Nat)

/-- `OffsetAndMessage` namedtuple. -/
structure OffsetAndMessage where
  offset : Int
  message : Message

/-- `ProduceResponse` namedtuple. -/
structure ProduceResponse where
  topic : String
  partition : Int
  error : Int
  offset : Int

/-- `FetchResponse` namedtuple. -/
structure FetchResponse where
  topic : String
  partition : Int
  error : Int
  highwaterMark : Int
  messages : List OffsetAndMessage

/-- `OffsetResponse` namedtuple. -/
structure OffsetResponse where
  topic : String
  partition : Int
  error : Int
  offsets : List Int

/-- `OffsetCommitResponse` namedtuple. -/
structure OffsetCommitResponse where
  topic : String
  partition : Int
  error : Int

/-- `OffsetFetchResponse` namedtuple. -/
structure OffsetFetchResponse where
  topic : String
  partition : Int
  offset : Int
  metadata : String
  error : Int

/-- `ConsumerMetadataResponse` namedtuple. -/
structure ConsumerMetadataResponse where
  error : Int
  node_id : Int
  host : String
  port : Int

/-- The argument of `_check_error`: either a bare integer error code
(the `isinstance(responseOrErrcode, int)` branch) or one of the
response-shaped records carrying an `.error` field. -/
inductive ResponseOrErrcode where
  | errcode (n : Int)
  | produce (r : ProduceResponse)
  | fetch (r : FetchResponse)
  | offsetResp (r : OffsetResponse)
  | offsetCommit (r : OffsetCommitResponse)
  | offsetFetch (r : OffsetFetchResponse)
  | consumerMetadata (r : ConsumerMetadataResponse)

/-- The errno extraction at the top of `_check_error`: the integer itself
in the `isinstance` branch, otherwise `responseOrErrcode.error`. -/
def getError : ResponseOrErrcode → Int
  | .errcode n => n
  | .produce r => r.error
  | .fetch r => r.error
  | .offsetResp r => r.error
  | .offsetCommit r => r.error
  | .offsetFetch r => r.error
  | .consumerMetadata r => r.error

/-- Observable outcome of one `_check_error` call: `success` models the
`return None` on errno 0, `raised e` models `raise error`, and
`returned e` models `return error`. -/
inductive CheckResult where
  | success
  | raised (e : ErrClass)
  | returned (e : ErrClass)
deriving DecidableEq

/-- `_check_error`, with the registry dict passed as explicit state so that
(non-)mutation of the registry is visible: the result is paired with the
registry as it stands after the call.  The body follows `common.py`
lines 698-716: extract `errno`; return `None` on 0; look the code up with
`dict.get`; on a miss build a bare `BrokerResponseError` with its `errno`
field set (base-class `message = None`, `retriable = False`); finally raise
or return according to `raiseException`. -/
def check_error_st (reg : List (Int × ErrClass))
    (responseOrErrcode : ResponseOrErrcode) (raiseException : Bool) :
    CheckResult × List (Int × ErrClass) :=
  let errno := getError responseOrErrcode
  if errno = 0 then
    (.success, reg)
  else
    let error : ErrClass :=
      match dictGet reg errno with
      | none => { errno := errno, message := none, retriable := false }
      | some cls => cls
    if raiseException then (.raised error, reg) else (.returned error, reg)

/-- `_check_error` against the process-wide registry
`BrokerResponseError.errnos`. -/
def check_error (responseOrErrcode : ResponseOrErrcode)
    (raiseException : Bool) : CheckResult :=
  (check_error_st errnos responseOrErrcode raiseException).1

/-- `_check_error` called without passing `raiseException`, whose Python
default is `True`. -/
def check_error_default (responseOrErrcode : ResponseOrErrcode) : CheckResult :=
  check_error responseOrErrcode true

/-- The error value `_check_error` builds for a non-zero code: the
registered class when the code is a key of `errnos`, otherwise a bare
`BrokerResponseError` carrying the code. -/
def classified (errno : Int) : ErrClass :=
  match errnosGet errno with
  | none => { errno := errno, message := none, retriable := false }
  | some cls => cls

/-- Every key of the registry dict lies in the canonical code table. -/
theorem errnos_keys_canonical : ∀ p ∈ errnos, p.1 ∈ canonicalCodes := by decide

/-- A code outside the canonical table is not a key of the registry. -/
theorem errnosGet_none_of_not_mem (c : Int) (hc : c ∉ canonicalCodes) :
    errnosGet c = none := by
  unfold errnosGet dictGet
  cases hfind : errnos.find? (fun p => p.1 == c) with
  | none => rfl
  | some p =>
      exfalso
      have hmem : p ∈ errnos := List.mem_of_find?_eq_some hfind
      have hp : p.1 = c := by
        have hpred := List.find?_some hfind
        simpa using hpred
      exact hc (hp ▸ errnos_keys_canonical p hmem)

/-- When the code is a registry key, `classified` is the registered class. -/
theorem classified_of_get_some (c : Int) (e : ErrClass)
    (h : errnosGet c = some e) : classified c = e := by
  unfold classified
  rw [h]

/-- When the code is not a registry key, `classified` is the bare
base-class value. -/
theorem classified_of_get_none (c : Int) (h : errnosGet c = none) :
    classified c = ⟨c, none, false⟩ := by
  unfold classified
  rw [h]

/-- Closed form of `_check_error` on a bare integer code. -/
theorem check_error_errcode (c : Int) (m : Bool) :
    check_error (.errcode c) m =
      if c = 0 then .success
      else if m then .raised (classified c) else .returned (classified c) := by
  unfold check_error check_error_st getError classified errnosGet
  by_cases h : c = 0
  · simp [h]
  · simp only [if_neg h]
    cases dictGet errnos c <;> cases m <;> rfl

/-- C1: for every code in the canonical table {0, -1, 1..72}, classifying
the bare code in return mode gives Success iff the code is 0; every
non-zero table code yields exactly the registered variant, whose errno
equals the input; in particular code 3 carries name
UNKNOWN_TOPIC_OR_PARTITION with retriable true and code 18 carries name
RECORD_LIST_TOO_LARGE with retriable false. -/
theorem classify_canonical_table (c : Int) (hc : c ∈ canonicalCodes) :
    ((check_error (.errcode c) false = .success) ↔ c = 0) ∧
    (c ≠ 0 →
      errnosGet c = some (classified c) ∧
      check_error (.errcode c) false = .returned (classified c) ∧
      (classified c).errno = c) ∧
    classified 3 = ⟨3, some "UNKNOWN_TOPIC_OR_PARTITION", true⟩ ∧
    classified 18 = ⟨18, some "RECORD_LIST_TOO_LARGE", false⟩ :=
  have h : ∀ x ∈ canonicalCodes,
      ((check_error (.errcode x) false = .success) ↔ x = 0) ∧
      (x ≠ 0 →
        errnosGet x = some (classified x) ∧
        check_error (.errcode x) false = .returned (classified x) ∧
        (classified x).errno = x) ∧
      classified 3 = ⟨3, some "UNKNOWN_TOPIC_OR_PARTITION", true⟩ ∧
      classified 18 = ⟨18, some "RECORD_LIST_TOO_LARGE", false⟩ := by decide
  h c hc

/-- Witness for C1, at code 3. -/
theorem classify_canonical_table_witness :
    check_error (.errcode 3) false = .returned (classified 3) :=
  ((classify_canonical_table 3 (by decide)).2.1 (by decide)).2.1

/-- C2: for every integer code outside the canonical table (every negative
code other than -1 and every code greater than 72), classifying the bare
code in return mode yields a bare generic error preserving the code, with
no name (None, not an empty string) and retriable false; no other outcome
is possible. -/
theorem classify_unknown_code (c : Int) (hc : c ∉ canonicalCodes) :
    check_error (.errcode c) false = .returned ⟨c, none, false⟩ ∧
    (classified c).errno = c ∧
    (classified c).message = none ∧
    (classified c).retriable = false := by
  have h0 : c ≠ 0 := fun h => hc (by rw [h]; decide)
  have hget : errnosGet c = none := errnosGet_none_of_not_mem c hc
  have hcl : classified c = ⟨c, none, false⟩ := classified_of_get_none c hget
  refine ⟨?_, by rw [hcl], by rw [hcl], by rw [hcl]⟩
  rw [check_error_errcode, if_neg h0, hcl]
  rfl

/-- Witness for C2, at code 9999. -/
theorem classify_unknown_code_witness :
    check_error (.errcode 9999) false = .returned ⟨9999, none, false⟩ :=
  (classify_unknown_code 9999 (by decide)).1

/-- C3: the classifier is total over the integers: every code lands in
exactly one of the three cases (code 0 and Success, a non-zero registered
code and its registered variant, or a non-zero unregistered code and the
generic error preserving the code); there is no further failure mode. -/
theorem classify_total (c : Int) :
    (c = 0 ∧ check_error (.errcode c) false = .success) ∨
    (c ≠ 0 ∧ ∃ e, errnosGet c = some e ∧
        check_error (.errcode c) false = .returned e) ∨
    (c ≠ 0 ∧ errnosGet c = none ∧
        check_error (.errcode c) false = .returned ⟨c, none, false⟩) := by
  by_cases h : c = 0
  · exact Or.inl ⟨h, by rw [check_error_errcode, if_pos h]⟩
  · cases hget : errnosGet c with
    | some e =>
        refine Or.inr (Or.inl ⟨h, e, rfl, ?_⟩)
        rw [check_error_errcode, if_neg h, classified_of_get_some c e hget]
        rfl
    | none =>
        refine Or.inr (Or.inr ⟨h, rfl, ?_⟩)
        rw [check_error_errcode, if_neg h, classified_of_get_none c hget]
        rfl

/-- C4: `_check_error` on any response-shaped record behaves exactly as on
the bare integer of the record's `error` field, in either mode; a record
whose `error` field is 0 yields Success, identical to classifying the bare
integer 0, so code 0 is never wrapped under either call shape. -/
theorem classify_response_extracts_error (x : ResponseOrErrcode) (m : Bool) :
    check_error x m = check_error (.errcode (getError x)) m ∧
    (getError x = 0 →
      check_error x m = .success ∧ check_error (.errcode 0) m = .success) := by
  have h1 : check_error x m = check_error (.errcode (getError x)) m := by
    cases x <;> rfl
  refine ⟨h1, fun h => ?_⟩
  rw [h1, h]
  constructor <;> (rw [check_error_errcode]; simp)

/-- Witness for C4: a ProduceResponse with error 0 classifies to Success. -/
theorem classify_response_extracts_error_witness :
    check_error (.produce ⟨"topic", 0, 0, 5⟩) false = .success :=
  ((classify_response_extracts_error (.produce ⟨"topic", 0, 0, 5⟩) false).2
    rfl).1

/-- C5: the two modes agree for every code: with code 0 neither mode raises
(both give Success); with a non-zero code, signal mode raises and return
mode returns the very same error value `classified c`. -/
theorem classify_modes_agree (c : Int) :
    (c = 0 → check_error (.errcode c) true = .success ∧
             check_error (.errcode c) false = .success) ∧
    (c ≠ 0 → check_error (.errcode c) true = .raised (classified c) ∧
             check_error (.errcode c) false = .returned (classified c)) := by
  constructor
  · intro h
    rw [h]
    exact ⟨rfl, rfl⟩
  · intro h
    constructor <;> (rw [check_error_errcode, if_neg h])
    · rfl
    · rfl

/-- Witness for C5, at code 1. -/
theorem classify_modes_agree_witness :
    check_error (.errcode 1) true = .raised (classified 1) ∧
    check_error (.errcode 1) false = .returned (classified 1) :=
  (classify_modes_agree 1).2 (by decide)

/-- C6 counterexample: the source defines five compatibility-alias
assignments, not exactly two. -/
theorem legacy_alias_count_not_two :
    legacyAliases.length = 5 ∧ ¬ legacyAliases.length = 2 := by decide

/-- C6 (amended): the aliases for codes 13 and 14 each resolve to the very
same variant (equal errno, message and retriable) as their canonical
counterpart; in total the taxonomy carries five compatibility aliases, not
two, every one of which is bound to a value identical to its canonical
counterpart. -/
theorem legacy_aliases_resolve :
    StaleLeaderEpochCodeError = NetworkException ∧
    StaleLeaderEpochCodeError.errno = 13 ∧
    OffsetsLoadInProgressError = CoordinatorLoadInProgress ∧
    OffsetsLoadInProgressError.errno = 14 ∧
    legacyAliases.length = 5 ∧
    (legacyAliases.all fun p => p.2.1 == p.2.2) = true := by decide

/-- C7 counterexample: the registry carries 72 entries besides the one for
code -1 (not 71), for 73 entries in total (not 72). -/
theorem errnos_count_not_71 :
    (errnos.filter fun p => p.1 != -1).length = 72 ∧
    ¬ (errnos.filter fun p => p.1 != -1).length = 71 ∧
    errnos.length = 73 := by decide

/-- C7 (amended): the registry has 73 entries, its keys being exactly -1
followed by 1 through 72; the keys are unique, and every registered
variant's stored errno equals its registry key. -/
theorem errnos_registry_shape :
    errnos.length = 73 ∧
    errnos.map Prod.fst = -1 :: (List.range 72).map (fun n => (n : Int) + 1) ∧
    (errnos.map Prod.fst).Nodup ∧
    (errnos.all fun p => p.2.errno == p.1) = true := by decide

/-- C8: classification is effect-free and idempotent: for any registry
state, any argument and any mode, the call leaves the registry exactly as
it found it (lookups, of unknown codes included, mutate nothing), and a
second call on the registry left behind by a first call yields the
identical complete result. -/
theorem classify_pure (reg : List (Int × ErrClass)) (x : ResponseOrErrcode)
    (m : Bool) :
    (check_error_st reg x m).2 = reg ∧
    check_error_st ((check_error_st errnos x m).2) x m =
      check_error_st errnos x m := by
  have hsnd : ∀ r : List (Int × ErrClass), (check_error_st r x m).2 = r := by
    intro r
    by_cases h : getError x = 0
    · simp [check_error_st, h]
    · cases m <;> simp [check_error_st, h]
  exact ⟨hsnd reg, by rw [hsnd errnos]⟩

/-- C9: beyond the aliases for codes 13 and 14, the source defines three
further compatibility aliases — InvalidMessageError for code 2,
ConsumerCoordinatorNotAvailableError for code 15 and
NotCoordinatorForConsumerError for code 16 — each bound to the identical
variant (equal errno, message and retriable) as its canonical
counterpart. -/
theorem extra_legacy_aliases :
    InvalidMessageError = CorruptMessage ∧
    InvalidMessageError.errno = 2 ∧
    InvalidMessageError.message = CorruptMessage.message ∧
    InvalidMessageError.retriable = CorruptMessage.retriable ∧
    ConsumerCoordinatorNotAvailableError = CoordinatorNotAvailable ∧
    ConsumerCoordinatorNotAvailableError.errno = 15 ∧
    NotCoordinatorForConsumerError = NotCoordinator ∧
    NotCoordinatorForConsumerError.errno = 16 := by decide

/-- C10: called without an explicit mode the classifier uses the Python
default `raiseException=True`: every non-zero code is raised rather than
returned, while code 0 still yields Success without raising. -/
theorem default_mode_raises (c : Int) :
    (c ≠ 0 → check_error_default (.errcode c) = .raised (classified c)) ∧
    check_error_default (.errcode 0) = .success := by
  constructor
  · intro h
    unfold check_error_default
    rw [check_error_errcode, if_neg h]
    rfl
  · rfl

/-- Witness for C10, at code 7. -/
theorem default_mode_raises_witness :
    check_error_default (.errcode 7) = .raised (classified 7) :=
  (default_mode_raises 7).1 (by decide)
